import Mathlib

/-!
Verification of the streaming-chat dashboard (personal-AI-secretary-at-work).

The development shallowly embeds the TypeScript sources:
* `src/frontend/web/src/types/domain.ts` — the data model (records below);
* the chat page (`buildPipeline`, `onSubmit`);
* `src/frontend/web/src/app/requests/page.tsx` — the approvals WebSocket
  updater (`applyApproval`);
* the chat stream session manager (`useChatStream`), whose source file is
  not among the sources at hand; its operations are modelled from the
  specification's description (each such definition is marked
  `Modelled from the spec:`).

JavaScript's in-place array/record mutation is rendered with value
semantics: copying a list and mutating one slot becomes producing a new
list value; reference identity plays no role in any of the verified
properties.
-/

/-- `PendingRequest` from `domain.ts`: structured clarification state.
`filled: Record<string, any>` is modelled as an association list of
string key/value pairs. -/
structure PendingRequestData where
  domain : String
  type : String
  filled : List (String × String)
  missing : List String
  step : Option String := none
  subtype : Option String := none
deriving DecidableEq

/-- Payload of a `ChatEvent` (`data?: Record<string, any>` in
`domain.ts`), restricted to the fields the client actually reads:
`agent` for pipeline events, `text` for token events, the pending-request
snapshot for `pending_request` events, a tool name for tool events, and a
still-open flag read when a turn finishes. -/
structure EventData where
  agent : Option String := none
  text : Option String := none
  pendingData : Option PendingRequestData := none
  tool : Option String := none
  stillOpen : Option Bool := none
deriving DecidableEq

/-- `ChatEvent` from `domain.ts`: a raw lifecycle signal, a string tag
plus an optional data payload. -/
structure ChatEvent where
  type : String
  data : Option EventData := none
deriving DecidableEq

/-- `ChatAction` from `domain.ts` (payload/result omitted: never read by
the client code under verification). -/
structure ChatAction where
  type : String
  status : String
  error : Option String := none
deriving DecidableEq

/-- Message role, the `"user" | "assistant"` union of `domain.ts`. -/
inductive Role where
  | user
  | assistant
deriving DecidableEq

/-- `ChatMessage` from `domain.ts`: a finalized turn in the transcript. -/
structure ChatMessage where
  id : String
  role : Role
  content : String
  createdAt : Nat
  pendingRequest : Option PendingRequestData := none
  actions : Option (List ChatAction) := none
deriving DecidableEq

/-- Status of one pipeline stage: the `"idle" | "active" | "done"` union
of the chat page's `PipelineState`. -/
inductive StageStatus where
  | idle
  | active
  | done
deriving DecidableEq

/-- `PipelineState` from the chat page: independent status per stage. -/
structure PipelineState where
  router : StageStatus
  domain : StageStatus
  tools : StageStatus
deriving DecidableEq

/-- The `evt.data?.agent` access of `buildPipeline` (optional chaining:
`none` when the payload is absent). -/
def agentOf (e : ChatEvent) : Option String :=
  e.data.bind (fun d => d.agent)

/-- One iteration of the `for` loop of `buildPipeline` (chat page):
six independent `if` statements, each possibly overwriting one stage. -/
def stepPipeline (s : PipelineState) (e : ChatEvent) : PipelineState :=
  let s1 := if e.type = "agent_started" ∧ agentOf e = some "RouterAgent" then
    { s with router := StageStatus.active } else s
  let s2 := if e.type = "agent_finished" ∧ agentOf e = some "RouterAgent" then
    { s1 with router := StageStatus.done } else s1
  let s3 := if e.type = "agent_started" ∧ agentOf e = some "DomainAgent" then
    { s2 with domain := StageStatus.active } else s2
  let s4 := if e.type = "agent_finished" ∧ agentOf e = some "DomainAgent" then
    { s3 with domain := StageStatus.done } else s3
  let s5 := if e.type = "tool_call" then { s4 with tools := StageStatus.active } else s4
  let s6 := if e.type = "tool_result" then { s5 with tools := StageStatus.done } else s5
  s6

/-- Initial state of `buildPipeline`: every stage `idle`. -/
def initPipeline : PipelineState :=
  { router := StageStatus.idle, domain := StageStatus.idle, tools := StageStatus.idle }

/-- `buildPipeline` from the chat page: fold the event log over the
per-event loop body, starting from the all-idle state. -/
def buildPipeline (events : List ChatEvent) : PipelineState :=
  events.foldl stepPipeline initPipeline

/-- Status update the spec assigns to the router stage for one event
(stated from the spec's words, to be compared with `buildPipeline`):
`agent_started` for the router makes it active, `agent_finished` done,
anything else is irrelevant to this stage. -/
def routerUpdate (e : ChatEvent) : Option StageStatus :=
  if e.type = "agent_started" ∧ agentOf e = some "RouterAgent" then some StageStatus.active
  else if e.type = "agent_finished" ∧ agentOf e = some "RouterAgent" then some StageStatus.done
  else none

/-- Status update the spec assigns to the domain stage for one event
(stated from the spec's words). -/
def domainUpdate (e : ChatEvent) : Option StageStatus :=
  if e.type = "agent_started" ∧ agentOf e = some "DomainAgent" then some StageStatus.active
  else if e.type = "agent_finished" ∧ agentOf e = some "DomainAgent" then some StageStatus.done
  else none

/-- Status update the spec assigns to the tools stage for one event
(stated from the spec's words): `tool_call` makes it active,
`tool_result` done. -/
def toolsUpdate (e : ChatEvent) : Option StageStatus :=
  if e.type = "tool_call" then some StageStatus.active
  else if e.type = "tool_result" then some StageStatus.done
  else none

/-- Status of a stage as determined by the last relevant event of the
log (the spec's reading): scan the reversed log for the first event the
stage-update function recognises; `idle` when none is relevant. -/
def lastStatus (f : ChatEvent → Option StageStatus) (events : List ChatEvent) : StageStatus :=
  (events.reverse.findSome? f).getD StageStatus.idle

/-- The event log of the spec's worked example. -/
def exampleLog : List ChatEvent :=
  [ { type := "agent_started", data := some { agent := some "RouterAgent" } },
    { type := "agent_finished", data := some { agent := some "RouterAgent" } },
    { type := "agent_started", data := some { agent := some "DomainAgent" } },
    { type := "tool_call" },
    { type := "tool_result" },
    { type := "agent_finished", data := some { agent := some "DomainAgent" } } ]

/-- `LeaveRequest` from `domain.ts` (numbers modelled as integers). -/
structure LeaveRequest where
  id : Int
  user_id : String
  leave_type : String
  start_date : String
  end_date : String
  status : String
  requested_days : Option Int := none
  approver_id : Option String := none
  reject_reason : Option String := none
  created_at : String
  updated_at : String
  reason : Option String := none
deriving DecidableEq

/-- `Expense` from `domain.ts`. -/
structure Expense where
  id : Int
  user_id : String
  amount : Int
  currency : String
  date : String
  category : String
  project_code : Option String := none
  status : String
  created_at : String
  updated_at : String
deriving DecidableEq

/-- `TravelRequest` from `domain.ts`. -/
structure TravelRequest where
  id : Int
  user_id : String
  origin : String
  destination : String
  departure_date : String
  return_date : Option String := none
  travel_class : Option String := none
  status : String
  created_at : String
  updated_at : String
deriving DecidableEq

/-- `Ticket` from `domain.ts`. -/
structure Ticket where
  id : Int
  user_id : String
  type : String
  category : Option String := none
  description : String
  location : Option String := none
  priority : Option String := none
  status : String
  assignee : Option String := none
  created_at : String
  updated_at : String
deriving DecidableEq

/-- `AccessRequest` from `domain.ts`. -/
structure AccessRequest where
  id : Int
  user_id : String
  resource : String
  requested_role : String
  justification : String
  status : String
  approver_id : Option String := none
  reject_reason : Option String := none
  created_at : String
  updated_at : String
deriving DecidableEq

/-- `RequestState` from the requests page: the five lists rendered by the
dashboard. -/
structure RequestState where
  leaves : List LeaveRequest
  expenses : List Expense
  travel : List TravelRequest
  access : List AccessRequest
  tickets : List Ticket
deriving DecidableEq

/-- A parsed approvals WebSocket message, the `{ kind, id, status }`
payload the requests page expects; `kind` is optional because `cloneMap`
guards against its absence. -/
structure ApprovalMsg where
  kind : Option String
  id : Int
  status : String
deriving DecidableEq

/-- Value-semantics rendering of `target.findIndex(i => i.id === id)`
followed by `target[idx] = { ...target[idx], status }` in the requests
page: replace the status of the first element whose identifier matches,
leave the list as it was when none matches. -/
def bumpStatus {α : Type} (getId : α → Int) (setSt : α → String → α)
    (pid : Int) (st : String) : List α → List α
  | [] => []
  | x :: xs =>
      if getId x = pid then setSt x st :: xs
      else x :: bumpStatus getId setSt pid st xs

/-- The approvals WebSocket `onmessage` state update of the requests
page: `cloneMap` selects the list named by `kind` (`null` on a missing or
unrecognised kind, in which case the previous state is returned), and the
first item of that list whose `id` matches gets its `status` replaced. -/
def applyApproval (p : ApprovalMsg) (s : RequestState) : RequestState :=
  match p.kind with
  | none => s
  | some k =>
      if k = "leave" then
        { s with leaves := bumpStatus (fun x => x.id) (fun x st => { x with status := st }) p.id p.status s.leaves }
      else if k = "expense" then
        { s with expenses := bumpStatus (fun x => x.id) (fun x st => { x with status := st }) p.id p.status s.expenses }
      else if k = "travel" then
        { s with travel := bumpStatus (fun x => x.id) (fun x st => { x with status := st }) p.id p.status s.travel }
      else if k = "access" then
        { s with access := bumpStatus (fun x => x.id) (fun x st => { x with status := st }) p.id p.status s.access }
      else if k = "ticket" then
        { s with tickets := bumpStatus (fun x => x.id) (fun x st => { x with status := st }) p.id p.status s.tickets }
      else s

/-- The element at position `i` of `l` is the first one whose identifier
is `pid` (stated with `take` so that it is decidable on concrete data). -/
def firstIdxWith {α : Type} (getId : α → Int) (pid : Int)
    (l : List α) (i : Nat) (x : α) : Prop :=
  l.get? i = some x ∧ getId x = pid ∧ ∀ y ∈ l.take i, getId y ≠ pid

instance {α : Type} [DecidableEq α] (getId : α → Int) (pid : Int)
    (l : List α) (i : Nat) (x : α) : Decidable (firstIdxWith getId pid l i x) := by
  unfold firstIdxWith
  infer_instance

/-- Sample record used to evaluate the approvals update on concrete data. -/
def sampleLeave1 : LeaveRequest :=
  { id := 1, user_id := "u1", leave_type := "annual", start_date := "2026-01-01",
    end_date := "2026-01-05", status := "submitted", created_at := "t0", updated_at := "t0" }

/-- Second sample record, the one the sample update targets. -/
def sampleLeave2 : LeaveRequest :=
  { id := 2, user_id := "u1", leave_type := "sick", start_date := "2026-02-01",
    end_date := "2026-02-02", status := "submitted", created_at := "t1", updated_at := "t1" }

/-- Sample dashboard state holding the two leave requests. -/
def sampleRequests : RequestState :=
  { leaves := [sampleLeave1, sampleLeave2], expenses := [], travel := [], access := [], tickets := [] }

/-- Sample approvals message targeting the second leave request. -/
def sampleMsg : ApprovalMsg :=
  { kind := some "leave", id := 2, status := "approved" }

/-- Sample approvals message with an unrecognised kind. -/
def sampleBadMsg : ApprovalMsg :=
  { kind := some "nonsense", id := 2, status := "approved" }

/-- JavaScript's `String.prototype.trim()`: strip whitespace from both
ends (Lean's own `String.trim` is bypassed because its byte-position
recursion does not reduce in the kernel; this definition computes the
same result on the inputs at hand, with `Char.isWhitespace` standing for
the JS whitespace class). -/
def trimStr (s : String) : String :=
  String.mk (List.rdropWhile (fun c => c.isWhitespace) (s.data.dropWhile (fun c => c.isWhitespace)))

/-- Modelled from the spec: the snapshot state owned by the chat stream
session manager (`useChatStream`, source not at hand) — transcript,
token accumulator, pending clarification, raw event log, connection
flags, in-flight marker, the per-connect epoch token, the tool actions
collected during the current turn, and a counter producing stable
message identifiers. -/
structure ChatSession where
  messages : List ChatMessage
  streamingText : String
  pendingRequest : Option PendingRequestData
  events : List ChatEvent
  connecting : Bool
  connected : Bool
  connectionError : Option String
  inFlight : Bool
  epoch : Nat
  turnActions : List ChatAction
  nextId : Nat
deriving DecidableEq

/-- Modelled from the spec: an inbound event tagged with the epoch of the
connection attempt that produced it. -/
structure TaggedEvent where
  epoch : Nat
  event : ChatEvent
deriving DecidableEq

/-- Text fragment carried by a token event (empty when absent). -/
def textOf (e : ChatEvent) : String :=
  (e.data.bind (fun d => d.text)).getD ""

/-- Pending-request snapshot carried by a `pending_request` event. -/
def pendingOf (e : ChatEvent) : Option PendingRequestData :=
  e.data.bind (fun d => d.pendingData)

/-- Tool name carried by a tool event (empty when absent). -/
def toolOf (e : ChatEvent) : String :=
  (e.data.bind (fun d => d.tool)).getD ""

/-- Whether a `done` payload reports the structured request still open. -/
def stillOpenOf (e : ChatEvent) : Bool :=
  (e.data.bind (fun d => d.stillOpen)).getD false

/-- Human-readable message attached to an `error` event. -/
def errorMsgOf (e : ChatEvent) : String :=
  (e.data.bind (fun d => d.text)).getD "stream error"

/-- A token event carrying one text fragment. -/
def tokenEvent (f : String) : ChatEvent :=
  { type := "token", data := some { text := some f } }

/-- A `done` event with no payload. -/
def doneEvent : ChatEvent :=
  { type := "done" }

/-- Modelled from the spec: the assistant `ChatMessage` finalized from
the accumulator when a turn completes. -/
def finalizedAssistant (s : ChatSession) (now : Nat) : ChatMessage :=
  { id := toString s.nextId, role := Role.assistant, content := s.streamingText,
    createdAt := now, pendingRequest := s.pendingRequest, actions := some s.turnActions }

/-- Modelled from the spec: the assistant `ChatMessage` finalized with an
error marker when an `error` event abandons the turn (the spec's
"finalized with an error marker" policy). -/
def errorAssistant (s : ChatSession) (now : Nat) (e : ChatEvent) : ChatMessage :=
  { id := toString s.nextId, role := Role.assistant, content := s.streamingText,
    createdAt := now, pendingRequest := s.pendingRequest,
    actions := some (s.turnActions ++ [{ type := "error", status := "error", error := some (errorMsgOf e) }]) }

/-- Modelled from the spec: `send(text)` — rejected as a no-op when the
text trims to empty or a turn is already in flight (the spec's
recommended busy-rejection policy); otherwise a user message is appended
optimistically and a new turn starts. -/
def send (text : String) (now : Nat) (s : ChatSession) : ChatSession :=
  if trimStr text = "" then s
  else if s.inFlight then s
  else
    { s with
      messages := s.messages ++ [{ id := toString s.nextId, role := Role.user, content := text, createdAt := now }],
      nextId := s.nextId + 1,
      inFlight := true,
      streamingText := "",
      turnActions := [],
      events := [] }

/-- `onSubmit` from the chat page: ignore drafts that trim to empty,
otherwise hand the trimmed draft to `send` (the page also clears the
local draft box, state that lives outside the session). -/
def onSubmit (draft : String) (now : Nat) (s : ChatSession) : ChatSession :=
  if trimStr draft = "" then s else send (trimStr draft) now s

/-- Modelled from the spec: ingestion of one inbound event. The epoch tag
is compared with the session's current epoch first; stale events are
dropped silently. Current events dispatch on the event type: tokens
append to the accumulator, `pending_request` replaces the snapshot
wholesale, lifecycle/tool events go to the event log (tool events also
collect an action), `done` finalizes the accumulator into an assistant
message when a turn is in flight and is a no-op otherwise, `error`
abandons the turn with an error-marked message, and unknown types are
dropped. -/
def deliverEvent (te : TaggedEvent) (now : Nat) (s : ChatSession) : ChatSession :=
  if te.epoch = s.epoch then
    if te.event.type = "token" then
      { s with streamingText := s.streamingText ++ textOf te.event }
    else if te.event.type = "pending_request" then
      { s with pendingRequest := pendingOf te.event }
    else if te.event.type = "agent_started" ∨ te.event.type = "agent_finished" then
      { s with events := s.events ++ [te.event] }
    else if te.event.type = "tool_call" then
      { s with events := s.events ++ [te.event], turnActions := s.turnActions ++ [{ type := toolOf te.event, status := "called" }] }
    else if te.event.type = "tool_result" then
      { s with events := s.events ++ [te.event], turnActions := s.turnActions ++ [{ type := toolOf te.event, status := "finished" }] }
    else if te.event.type = "done" then
      if s.inFlight then
        { s with
          messages := s.messages ++ [finalizedAssistant s now],
          nextId := s.nextId + 1,
          streamingText := "",
          turnActions := [],
          events := [],
          inFlight := false,
          pendingRequest := if stillOpenOf te.event then s.pendingRequest else none }
      else s
    else if te.event.type = "error" then
      if s.inFlight then
        { s with
          messages := s.messages ++ [errorAssistant s now te.event],
          nextId := s.nextId + 1,
          streamingText := "",
          turnActions := [],
          events := [],
          inFlight := false,
          connectionError := some (errorMsgOf te.event) }
      else { s with connectionError := some (errorMsgOf te.event) }
    else s
  else s

/-- Modelled from the spec: `connect()` — a no-op while already
connected or connecting, otherwise a fresh connection attempt with a new
epoch token. -/
def connectSession (s : ChatSession) : ChatSession :=
  if s.connected ∨ s.connecting then s
  else { s with connecting := true, connectionError := none, epoch := s.epoch + 1 }

/-- Modelled from the spec: the transport's open callback, accepted only
for the still-current connection attempt. -/
def onOpen (ep : Nat) (s : ChatSession) : ChatSession :=
  if ep = s.epoch ∧ s.connecting then { s with connecting := false, connected := true } else s

/-- Modelled from the spec: `disconnect()` — reentrant-safe release into
a well-defined disconnected state. -/
def disconnectSession (s : ChatSession) : ChatSession :=
  { s with connected := false, connecting := false }

/-- The freshly mounted session: empty transcript, no connection. -/
def initSession : ChatSession :=
  { messages := [], streamingText := "", pendingRequest := none, events := [],
    connecting := false, connected := false, connectionError := none,
    inFlight := false, epoch := 0, turnActions := [], nextId := 0 }

/-- A concrete session with one user message and a turn in flight, used
to evaluate the session operations on concrete data. -/
def inFlightSession : ChatSession :=
  send "book a flight" 5 (onOpen 1 (connectSession initSession))

lemma stepPipeline_router (s : PipelineState) (e : ChatEvent) :
    (stepPipeline s e).router = (routerUpdate e).getD s.router := by
  simp only [stepPipeline, routerUpdate]
  split_ifs <;> simp_all

lemma stepPipeline_domain (s : PipelineState) (e : ChatEvent) :
    (stepPipeline s e).domain = (domainUpdate e).getD s.domain := by
  simp only [stepPipeline, domainUpdate]
  split_ifs <;> simp_all

lemma stepPipeline_tools (s : PipelineState) (e : ChatEvent) :
    (stepPipeline s e).tools = (toolsUpdate e).getD s.tools := by
  simp only [stepPipeline, toolsUpdate]
  split_ifs <;> simp_all

lemma findSome?_append {α β : Type} (f : α → Option β) (l1 l2 : List α) :
    (l1 ++ l2).findSome? f =
      match l1.findSome? f with
      | some v => some v
      | none => l2.findSome? f := by
  induction l1 with
  | nil => simp [List.findSome?]
  | cons a l ih =>
      simp only [List.cons_append, List.findSome?]
      cases f a <;> simp [ih]

lemma foldl_stage (f : ChatEvent → Option StageStatus)
    (proj : PipelineState → StageStatus)
    (hstep : ∀ s e, proj (stepPipeline s e) = (f e).getD (proj s))
    (events : List ChatEvent) :
    ∀ s : PipelineState,
      proj (events.foldl stepPipeline s) = (events.reverse.findSome? f).getD (proj s) := by
  induction events with
  | nil => intro s; simp
  | cons e es ih =>
      intro s
      simp only [List.foldl_cons, List.reverse_cons]
      rw [ih, findSome?_append]
      cases h : es.reverse.findSome? f
      · cases hf : f e <;> simp [hstep, List.findSome?, hf]
      · simp

/-- Claim C1: for every event log, `buildPipeline` assigns each stage the
status determined by the last relevant event of the log (`active` on
`agent_started` for the stage, `done` on the matching `agent_finished`,
`active` on `tool_call` and `done` on `tool_result` for the tools stage),
`idle` when the log holds no relevant event; in particular the spec's
example log yields all three stages `done`. -/
theorem claim_C1 (events : List ChatEvent) :
    (buildPipeline events).router = lastStatus routerUpdate events ∧
    (buildPipeline events).domain = lastStatus domainUpdate events ∧
    (buildPipeline events).tools = lastStatus toolsUpdate events ∧
    buildPipeline exampleLog =
      { router := StageStatus.done, domain := StageStatus.done, tools := StageStatus.done } := by
  refine ⟨?_, ?_, ?_, ?_⟩
  · simpa [buildPipeline, lastStatus, initPipeline] using
      foldl_stage routerUpdate (fun s => s.router) stepPipeline_router events initPipeline
  · simpa [buildPipeline, lastStatus, initPipeline] using
      foldl_stage domainUpdate (fun s => s.domain) stepPipeline_domain events initPipeline
  · simpa [buildPipeline, lastStatus, initPipeline] using
      foldl_stage toolsUpdate (fun s => s.tools) stepPipeline_tools events initPipeline
  · decide

/-- Claim C2: extending the event log by one event and rebuilding the
pipeline from scratch equals applying the single-event fold step to the
pipeline built from the original log — the incremental fold and the
from-scratch recomputation agree. -/
theorem claim_C2 (log : List ChatEvent) (e : ChatEvent) :
    buildPipeline (log ++ [e]) = stepPipeline (buildPipeline log) e := by
  simp [buildPipeline, List.foldl_append]

/-- Claim C9: an event whose type is none of the four pipeline-relevant
types, or an `agent_started`/`agent_finished` event whose payload's agent
is neither `RouterAgent` nor `DomainAgent` (a missing payload included),
leaves every stage of the pipeline state unchanged under the fold step. -/
theorem claim_C9 (s : PipelineState) (e : ChatEvent)
    (h : (e.type ≠ "agent_started" ∧ e.type ≠ "agent_finished" ∧
          e.type ≠ "tool_call" ∧ e.type ≠ "tool_result") ∨
         ((e.type = "agent_started" ∨ e.type = "agent_finished") ∧
          agentOf e ≠ some "RouterAgent" ∧ agentOf e ≠ some "DomainAgent")) :
    stepPipeline s e = s := by
  rcases h with ⟨h1, h2, h3, h4⟩ | ⟨h5, h6, h7⟩
  · simp [stepPipeline, h1, h2, h3, h4]
  · rcases h5 with h5 | h5 <;> simp [stepPipeline, h5, h6, h7]

/-- Concrete check for claim C9: a `token` event with a text payload
leaves the all-idle pipeline state unchanged. -/
theorem claim_C9_witness :
    stepPipeline initPipeline { type := "token", data := some { text := some "hi" } } =
      initPipeline :=
  claim_C9 initPipeline { type := "token", data := some { text := some "hi" } }
    (Or.inl (by decide))

lemma bumpStatus_no_match {α : Type} (getId : α → Int) (setSt : α → String → α)
    (pid : Int) (st : String) (l : List α) (h : ∀ x ∈ l, getId x ≠ pid) :
    bumpStatus getId setSt pid st l = l := by
  induction l with
  | nil => rfl
  | cons x xs ih =>
      simp only [bumpStatus]
      rw [if_neg (h x (List.mem_cons_self x xs))]
      rw [ih (fun y hy => h y (List.mem_cons_of_mem x hy))]

lemma bumpStatus_first_match {α : Type} (getId : α → Int) (setSt : α → String → α)
    (pid : Int) (st : String) (l : List α) (i : Nat) (x : α)
    (hget : l.get? i = some x) (hid : getId x = pid)
    (hfirst : ∀ y ∈ l.take i, getId y ≠ pid) :
    bumpStatus getId setSt pid st l = l.set i (setSt x st) := by
  induction l generalizing i with
  | nil => simp at hget
  | cons a xs ih =>
      cases i with
      | zero =>
          simp only [List.get?] at hget
          cases hget
          simp [bumpStatus, hid]
      | succ j =>
          simp only [List.get?] at hget
          have ha : getId a ≠ pid := by
            apply hfirst
            simp [List.take_succ_cons]
          simp only [bumpStatus, List.set]
          rw [if_neg ha]
          rw [ih j hget (fun y hy => hfirst y (by simp [List.take_succ_cons, hy]))]

/-- Claim C10: an approvals status-update message whose kind is missing
or unrecognised, or whose id matches no item of the addressed list,
leaves the whole dashboard state unchanged; otherwise exactly the status
of the first item with that id in the one addressed list is replaced,
with every other field of that item, every other item, and the four
other lists untouched. -/
theorem claim_C10 (p : ApprovalMsg) (s : RequestState) :
    ((∀ k, p.kind = some k →
        k ≠ "leave" ∧ k ≠ "expense" ∧ k ≠ "travel" ∧ k ≠ "access" ∧ k ≠ "ticket") →
      applyApproval p s = s) ∧
    (p.kind = some "leave" →
      ((∀ x ∈ s.leaves, x.id ≠ p.id) → applyApproval p s = s) ∧
      (∀ i x, firstIdxWith (fun y => y.id) p.id s.leaves i x →
        applyApproval p s = { s with leaves := s.leaves.set i { x with status := p.status } })) ∧
    (p.kind = some "expense" →
      ((∀ x ∈ s.expenses, x.id ≠ p.id) → applyApproval p s = s) ∧
      (∀ i x, firstIdxWith (fun y => y.id) p.id s.expenses i x →
        applyApproval p s = { s with expenses := s.expenses.set i { x with status := p.status } })) ∧
    (p.kind = some "travel" →
      ((∀ x ∈ s.travel, x.id ≠ p.id) → applyApproval p s = s) ∧
      (∀ i x, firstIdxWith (fun y => y.id) p.id s.travel i x →
        applyApproval p s = { s with travel := s.travel.set i { x with status := p.status } })) ∧
    (p.kind = some "access" →
      ((∀ x ∈ s.access, x.id ≠ p.id) → applyApproval p s = s) ∧
      (∀ i x, firstIdxWith (fun y => y.id) p.id s.access i x →
        applyApproval p s = { s with access := s.access.set i { x with status := p.status } })) ∧
    (p.kind = some "ticket" →
      ((∀ x ∈ s.tickets, x.id ≠ p.id) → applyApproval p s = s) ∧
      (∀ i x, firstIdxWith (fun y => y.id) p.id s.tickets i x →
        applyApproval p s = { s with tickets := s.tickets.set i { x with status := p.status } })) := by
  refine ⟨?_, ?_, ?_, ?_, ?_, ?_⟩
  · intro h
    cases hk : p.kind with
    | none => simp [applyApproval, hk]
    | some k =>
        obtain ⟨h1, h2, h3, h4, h5⟩ := h k hk
        simp [applyApproval, hk, h1, h2, h3, h4, h5]
  · intro hk
    constructor
    · intro hno
      simp [applyApproval, hk,
        bumpStatus_no_match (fun y => y.id) (fun x st => { x with status := st }) p.id p.status s.leaves hno]
    · rintro i x ⟨hget, hid, hfirst⟩
      simp [applyApproval, hk,
        bumpStatus_first_match (fun y => y.id) (fun x st => { x with status := st }) p.id p.status s.leaves i x hget hid hfirst]
  · intro hk
    constructor
    · intro hno
      simp [applyApproval, hk,
        bumpStatus_no_match (fun y => y.id) (fun x st => { x with status := st }) p.id p.status s.expenses hno]
    · rintro i x ⟨hget, hid, hfirst⟩
      simp [applyApproval, hk,
        bumpStatus_first_match (fun y => y.id) (fun x st => { x with status := st }) p.id p.status s.expenses i x hget hid hfirst]
  · intro hk
    constructor
    · intro hno
      simp [applyApproval, hk,
        bumpStatus_no_match (fun y => y.id) (fun x st => { x with status := st }) p.id p.status s.travel hno]
    · rintro i x ⟨hget, hid, hfirst⟩
      simp [applyApproval, hk,
        bumpStatus_first_match (fun y => y.id) (fun x st => { x with status := st }) p.id p.status s.travel i x hget hid hfirst]
  · intro hk
    constructor
    · intro hno
      simp [applyApproval, hk,
        bumpStatus_no_match (fun y => y.id) (fun x st => { x with status := st }) p.id p.status s.access hno]
    · rintro i x ⟨hget, hid, hfirst⟩
      simp [applyApproval, hk,
        bumpStatus_first_match (fun y => y.id) (fun x st => { x with status := st }) p.id p.status s.access i x hget hid hfirst]
  · intro hk
    constructor
    · intro hno
      simp [applyApproval, hk,
        bumpStatus_no_match (fun y => y.id) (fun x st => { x with status := st }) p.id p.status s.tickets hno]
    · rintro i x ⟨hget, hid, hfirst⟩
      simp [applyApproval, hk,
        bumpStatus_first_match (fun y => y.id) (fun x st => { x with status := st }) p.id p.status s.tickets i x hget hid hfirst]

/-- Concrete check for claim C10: the sample message flips exactly the
second leave request to approved, and a message of unknown kind changes
nothing. -/
theorem claim_C10_witness :
    applyApproval sampleMsg sampleRequests =
      { sampleRequests with leaves := sampleRequests.leaves.set 1 { sampleLeave2 with status := "approved" } } ∧
    applyApproval sampleBadMsg sampleRequests = sampleRequests := by
  constructor
  · exact ((claim_C10 sampleMsg sampleRequests).2.1 rfl).2 1 sampleLeave2 (by decide)
  · refine (claim_C10 sampleBadMsg sampleRequests).1 ?_
    intro k hk
    have : k = "nonsense" := by
      have h := hk
      simp [sampleBadMsg] at h
      exact h.symm
    subst this
    decide

lemma trimStr_idem (s : String) : trimStr (trimStr s) = trimStr s := by
  unfold trimStr
  have h1 : List.dropWhile (fun c => c.isWhitespace) (List.rdropWhile (fun c => c.isWhitespace) (s.data.dropWhile (fun c => c.isWhitespace))) = List.rdropWhile (fun c => c.isWhitespace) (s.data.dropWhile (fun c => c.isWhitespace)) := by
    set p : Char → Bool := fun c => c.isWhitespace with hp
    set m := s.data.dropWhile p with hm
    have hmself : List.dropWhile p m = m := List.dropWhile_idempotent p s.data
    obtain ⟨r, hr⟩ := List.rdropWhile_prefix p m
    rw [List.dropWhile_eq_self_iff]
    intro hl
    have hm0 : 0 < m.length := by
      rw [← hr]
      simp only [List.length_append]
      omega
    have e1 : (List.rdropWhile p m)[0]? = some ((List.rdropWhile p m).get ⟨0, hl⟩) := by
      simp [List.getElem?_eq_getElem hl, List.get_eq_getElem]
    have e2 : m[0]? = some (m.get ⟨0, hm0⟩) := by
      simp [List.getElem?_eq_getElem hm0, List.get_eq_getElem]
    have h0 : m[0]? = (List.rdropWhile p m)[0]? := by
      conv_lhs => rw [← hr]
      simp [List.getElem?_append, hl, List.getElem_append_left]
    have hget : (List.rdropWhile p m).get ⟨0, hl⟩ = m.get ⟨0, hm0⟩ := by
      have := h0.symm.trans e2
      rw [e1] at this
      exact Option.some.inj this
    rw [hget]
    exact List.dropWhile_eq_self_iff.mp hmself hm0
  rw [h1]
  exact congrArg String.mk (List.rdropWhile_idempotent _ _)

lemma strFoldlJoin (l : List String) :
    ∀ a : String, List.foldl (fun r t => r ++ t) a l = a ++ String.join l := by
  induction l with
  | nil =>
      intro a
      simp [String.join, String.append_empty]
  | cons b l ih =>
      intro a
      simp only [String.join, List.foldl_cons]
      rw [ih (a ++ b), ih ("" ++ b)]
      rw [String.empty_append, String.append_assoc]

lemma join_cons (b : String) (l : List String) :
    String.join (b :: l) = b ++ String.join l := by
  simp only [String.join, List.foldl_cons]
  rw [strFoldlJoin l ("" ++ b), String.empty_append]
  rfl

lemma deliver_token_eq (st : ChatSession) (ep : Nat) (f : String) (n : Nat)
    (h : ep = st.epoch) :
    deliverEvent { epoch := ep, event := tokenEvent f } n st =
      { st with streamingText := st.streamingText ++ f } := by
  subst h
  simp [deliverEvent, tokenEvent, textOf]

lemma tokenFold (frags : List String) (ep n : Nat) :
    ∀ s : ChatSession, ep = s.epoch →
      List.foldl (fun st f => deliverEvent { epoch := ep, event := tokenEvent f } n st) s frags =
        { s with streamingText := s.streamingText ++ String.join frags } := by
  induction frags with
  | nil =>
      intro s h
      simp [String.join, String.append_empty]
  | cons f fs ih =>
      intro s h
      rw [List.foldl_cons, deliver_token_eq s ep f n h]
      rw [ih { s with streamingText := s.streamingText ++ f } h]
      rw [join_cons, ← String.append_assoc]

/-- Claim C3: delivering any sequence of token events within one turn
leaves the accumulator equal to the ordered concatenation of the
fragments (the accumulator grows only by appending each fragment in
order), and the assistant message finalized by the turn's `done` event
carries exactly that concatenation as its content. -/
theorem claim_C3 (s : ChatSession) (frags : List String) (n m : Nat)
    (hf : s.inFlight = true) (hs : s.streamingText = "") :
    (List.foldl (fun st f => deliverEvent { epoch := s.epoch, event := tokenEvent f } n st) s frags).streamingText = String.join frags ∧
    (deliverEvent { epoch := s.epoch, event := doneEvent } m (List.foldl (fun st f => deliverEvent { epoch := s.epoch, event := tokenEvent f } n st) s frags)).messages =
      s.messages ++ [{ id := toString s.nextId, role := Role.assistant, content := String.join frags, createdAt := m, pendingRequest := s.pendingRequest, actions := some s.turnActions }] := by
  have hfold := tokenFold frags s.epoch n s rfl
  rw [hfold]
  constructor
  · simp [hs, String.empty_append]
  · simp [deliverEvent, doneEvent, finalizedAssistant, hf, hs, String.empty_append]

/-- Concrete check for claim C3: the spec's two fragments accumulate to
the full sentence and finalize into the expected assistant message. -/
theorem claim_C3_witness :
    (List.foldl (fun st f => deliverEvent { epoch := inFlightSession.epoch, event := tokenEvent f } 6 st) inFlightSession ["I can help ", "with that."]).streamingText = "I can help with that." ∧
    (deliverEvent { epoch := inFlightSession.epoch, event := doneEvent } 9 (List.foldl (fun st f => deliverEvent { epoch := inFlightSession.epoch, event := tokenEvent f } 6 st) inFlightSession ["I can help ", "with that."])).messages =
      inFlightSession.messages ++ [{ id := toString inFlightSession.nextId, role := Role.assistant, content := "I can help with that.", createdAt := 9, pendingRequest := inFlightSession.pendingRequest, actions := some inFlightSession.turnActions }] := by
  have hj : String.join ["I can help ", "with that."] = "I can help with that." := by decide
  have h := claim_C3 inFlightSession ["I can help ", "with that."] 6 9 (by decide) (by decide)
  rw [hj] at h
  exact h

/-- Claim C4: `send` with input that trims to empty is a complete no-op
on the session, and a submission whose draft is non-empty after trimming
appends a user message carrying exactly the trimmed text. -/
theorem claim_C4 (s : ChatSession) (text draft : String) (n n' : Nat) :
    (trimStr text = "" → send text n s = s) ∧
    (trimStr draft ≠ "" → s.inFlight = false →
      (onSubmit draft n' s).messages =
        s.messages ++ [{ id := toString s.nextId, role := Role.user, content := trimStr draft, createdAt := n' }]) := by
  constructor
  · intro h
    unfold send
    rw [if_pos h]
  · intro hne hnf
    unfold onSubmit
    rw [if_neg hne]
    unfold send
    simp only [trimStr_idem]
    rw [if_neg hne]
    simp [hnf]

/-- Concrete check for claim C4: whitespace-only input is dropped, and a
padded draft is submitted trimmed. -/
theorem claim_C4_witness :
    send "   " 4 initSession = initSession ∧
    (onSubmit " book a room " 5 initSession).messages =
      initSession.messages ++ [{ id := toString initSession.nextId, role := Role.user, content := trimStr " book a room ", createdAt := 5 }] := by
  constructor
  · exact (claim_C4 initSession "   " " book a room " 4 5).1 (by decide)
  · exact (claim_C4 initSession "   " " book a room " 4 5).2 (by decide) rfl

/-- Claim C5: while a turn is in flight, `send` is rejected outright —
the session (transcript included) is unchanged and no second turn
starts, so at most one turn is ever in flight. -/
theorem claim_C5 (s : ChatSession) (text : String) (n : Nat) (h : s.inFlight = true) :
    send text n s = s := by
  unfold send
  split_ifs <;> simp_all

/-- Concrete check for claim C5: sending while the sample turn is in
flight changes nothing. -/
theorem claim_C5_witness : send "second message" 6 inFlightSession = inFlightSession :=
  claim_C5 inFlightSession "second message" 6 (by decide)

/-- Claim C6: an event tagged with an epoch other than the session's
current one is dropped silently — delivering it leaves the whole session
state (transcript, accumulator, pending request, event log and all)
unchanged. -/
theorem claim_C6 (te : TaggedEvent) (n : Nat) (s : ChatSession) (h : te.epoch ≠ s.epoch) :
    deliverEvent te n s = s := by
  unfold deliverEvent
  rw [if_neg h]

/-- Concrete check for claim C6: a token from the stale epoch 0 does not
touch the sample session (current epoch 1). -/
theorem claim_C6_witness :
    deliverEvent { epoch := 0, event := tokenEvent "late" } 7 inFlightSession = inFlightSession :=
  claim_C6 { epoch := 0, event := tokenEvent "late" } 7 inFlightSession (by decide)

/-- Claim C7: a `done` event arriving when no turn is in flight is a
complete no-op, and when a turn is in flight a `done` appends exactly one
assistant message after which a second `done` changes nothing — so
processing `done` twice for one turn appends exactly one message. -/
theorem claim_C7 (s : ChatSession) (e e' : ChatEvent) (n n' : Nat)
    (he : e.type = "done") (he' : e'.type = "done") :
    (s.inFlight = false → deliverEvent { epoch := s.epoch, event := e } n s = s) ∧
    (s.inFlight = true →
      (deliverEvent { epoch := s.epoch, event := e } n s).messages.length = s.messages.length + 1 ∧
      deliverEvent { epoch := (deliverEvent { epoch := s.epoch, event := e } n s).epoch, event := e' } n' (deliverEvent { epoch := s.epoch, event := e } n s) = deliverEvent { epoch := s.epoch, event := e } n s) := by
  constructor
  · intro hnf
    simp [deliverEvent, he, hnf]
  · intro hf
    have h1 : deliverEvent { epoch := s.epoch, event := e } n s = { s with messages := s.messages ++ [finalizedAssistant s n], nextId := s.nextId + 1, streamingText := "", turnActions := [], events := [], inFlight := false, pendingRequest := if stillOpenOf e then s.pendingRequest else none } := by
      simp [deliverEvent, he, hf]
    constructor
    · rw [h1]
      simp
    · rw [h1]
      simp [deliverEvent, he']

/-- Concrete check for claim C7: `done` on the idle fresh session is a
no-op, while on the in-flight sample session it appends one message and a
second `done` is then a no-op. -/
theorem claim_C7_witness :
    deliverEvent { epoch := initSession.epoch, event := doneEvent } 3 initSession = initSession ∧
    (deliverEvent { epoch := inFlightSession.epoch, event := doneEvent } 7 inFlightSession).messages.length = inFlightSession.messages.length + 1 ∧
    deliverEvent { epoch := (deliverEvent { epoch := inFlightSession.epoch, event := doneEvent } 7 inFlightSession).epoch, event := doneEvent } 8 (deliverEvent { epoch := inFlightSession.epoch, event := doneEvent } 7 inFlightSession) = deliverEvent { epoch := inFlightSession.epoch, event := doneEvent } 7 inFlightSession := by
  refine ⟨(claim_C7 initSession doneEvent doneEvent 3 8 rfl rfl).1 rfl, ?_, ?_⟩
  · exact ((claim_C7 inFlightSession doneEvent doneEvent 7 8 rfl rfl).2 (by decide)).1
  · exact ((claim_C7 inFlightSession doneEvent doneEvent 7 8 rfl rfl).2 (by decide)).2

/-- Claim C8: the transcript is append-only — every session operation
(`send`, submission, event ingestion, connect, open, disconnect) extends
the messages list by a (possibly empty) suffix, and consequently every
previously appended message, all its fields included, is still found
unchanged at its old position afterwards. -/
theorem claim_C8 :
    (∀ (s : ChatSession) (text : String) (n : Nat), ∃ t, (send text n s).messages = s.messages ++ t) ∧
    (∀ (s : ChatSession) (draft : String) (n : Nat), ∃ t, (onSubmit draft n s).messages = s.messages ++ t) ∧
    (∀ (s : ChatSession) (te : TaggedEvent) (n : Nat), ∃ t, (deliverEvent te n s).messages = s.messages ++ t) ∧
    (∀ s : ChatSession, (connectSession s).messages = s.messages) ∧
    (∀ (ep : Nat) (s : ChatSession), (onOpen ep s).messages = s.messages) ∧
    (∀ s : ChatSession, (disconnectSession s).messages = s.messages) ∧
    (∀ (s : ChatSession) (te : TaggedEvent) (n i : Nat) (msg : ChatMessage),
      s.messages[i]? = some msg → (deliverEvent te n s).messages[i]? = some msg) := by
  have hsend : ∀ (s : ChatSession) (text : String) (n : Nat), ∃ t, (send text n s).messages = s.messages ++ t := by
    intro s text n
    unfold send
    split_ifs
    · exact ⟨[], by simp⟩
    · exact ⟨[], by simp⟩
    · exact ⟨_, rfl⟩
  have hdel : ∀ (s : ChatSession) (te : TaggedEvent) (n : Nat), ∃ t, (deliverEvent te n s).messages = s.messages ++ t := by
    intro s te n
    unfold deliverEvent
    by_cases h0 : te.epoch = s.epoch
    case neg => rw [if_neg h0]; exact ⟨[], by simp⟩
    rw [if_pos h0]
    by_cases h1 : te.event.type = "token"
    case pos => rw [if_pos h1]; exact ⟨[], by simp⟩
    rw [if_neg h1]
    by_cases h2 : te.event.type = "pending_request"
    case pos => rw [if_pos h2]; exact ⟨[], by simp⟩
    rw [if_neg h2]
    by_cases h3 : te.event.type = "agent_started" ∨ te.event.type = "agent_finished"
    case pos => rw [if_pos h3]; exact ⟨[], by simp⟩
    rw [if_neg h3]
    by_cases h4 : te.event.type = "tool_call"
    case pos => rw [if_pos h4]; exact ⟨[], by simp⟩
    rw [if_neg h4]
    by_cases h5 : te.event.type = "tool_result"
    case pos => rw [if_pos h5]; exact ⟨[], by simp⟩
    rw [if_neg h5]
    by_cases h6 : te.event.type = "done"
    case pos =>
      rw [if_pos h6]
      by_cases h7 : s.inFlight = true
      · rw [if_pos h7]; exact ⟨[finalizedAssistant s n], rfl⟩
      · rw [if_neg h7]; exact ⟨[], by simp⟩
    rw [if_neg h6]
    by_cases h8 : te.event.type = "error"
    case pos =>
      rw [if_pos h8]
      by_cases h9 : s.inFlight = true
      · rw [if_pos h9]; exact ⟨[errorAssistant s n te.event], rfl⟩
      · rw [if_neg h9]; exact ⟨[], by simp⟩
    rw [if_neg h8]
    exact ⟨[], by simp⟩
  refine ⟨hsend, ?_, hdel, ?_, ?_, ?_, ?_⟩
  · intro s draft n
    unfold onSubmit
    split_ifs
    · exact ⟨[], by simp⟩
    · exact hsend s (trimStr draft) n
  · intro s
    unfold connectSession
    split_ifs <;> rfl
  · intro ep s
    unfold onOpen
    split_ifs <;> rfl
  · intro s
    rfl
  · intro s te n i msg h
    obtain ⟨t, ht⟩ := hdel s te n
    have hlt : i < s.messages.length := by
      by_contra hge
      push_neg at hge
      rw [List.getElem?_eq_none hge] at h
      exact Option.noConfusion h
    rw [ht, List.getElem?_append]
    rw [if_pos hlt]
    exact h

/-- Concrete check for claim C8: after the sample turn is finalized by a
`done` event, the original user message is still at position 0 intact. -/
theorem claim_C8_witness :
    (deliverEvent { epoch := inFlightSession.epoch, event := doneEvent } 7 inFlightSession).messages[0]? =
      some { id := "0", role := Role.user, content := "book a flight", createdAt := 5 } :=
  claim_C8.2.2.2.2.2.2 inFlightSession { epoch := inFlightSession.epoch, event := doneEvent } 7 0
    { id := "0", role := Role.user, content := "book a flight", createdAt := 5 } (by decide)
